import Mathlib

/-!
Shallow embedding of the libmantle sel4cp API simulator
(`src/examples/tutorial/start/extra/simulator.h`) and of the libmantle
wrapper layer (`src/library/libmantle.h`).

Machine integers (`uint64_t` and friends) are modelled as `Nat`, with an
explicit reduction modulo `2 ^ 64` wherever the C arithmetic can wrap.
The simulator's process-wide mutable globals become the fields of a
`SimState` record, and every C function that mutates them becomes a pure
function from states to states (paired with its return value).
-/

/-- `2 ^ 64`, the modulus of the C `uint64_t` arithmetic. -/
def U64 : Nat := 2 ^ 64

/-- `x--` on a `uint64_t` variable: decrement, wrapping around at zero. -/
def dec64 (x : Nat) : Nat := (x + (U64 - 1)) % U64

/-- `#define SIM_CALLTYPE_RECV 0` -/
def SIM_CALLTYPE_RECV : Nat := 0

/-- `#define SIM_CALLTYPE_REPLYRECV 1` -/
def SIM_CALLTYPE_REPLYRECV : Nat := 1

/-- `#define SIM_CALLTYPE_PPCALL 2` -/
def SIM_CALLTYPE_PPCALL : Nat := 2

/-- The process-wide mutable globals of `simulator.h`, gathered into one
record: the call metadata (`sim_calltype`, `sim_tick`), the event flags
(`sim_notified`, `sim_irq_acked`, `sim_ppcalled`), the recorded reply label
(`sim_reply_label`), the message-register file (`sim_msg_register`), the
badge out-register (`sim_return_badge`), the `debug` word, the simulated
pinpad buffer byte (`sim_pinpad_input[0]`), and the scenario-engine state
(`sim_stage`, `sim_irq_delay`, `sim_next_digit`). -/
structure SimState where
  calltype : Nat
  tick : Nat
  notified : Nat
  irq_acked : Nat
  ppcalled : Nat
  reply_label : Nat
  msg : List Nat
  return_badge : Nat
  debug : Nat
  pinpad : Nat
  stage : Nat
  irq_delay : Nat
  next_digit : Nat
  deriving Repr, DecidableEq

/-- The initializers of the globals of `simulator.h`: calltype `RECV`,
all counters and flags zero, 121 zeroed message registers, stage `0`,
`sim_irq_delay = 1000000`, `sim_next_digit = 5`. -/
def initState : SimState :=
  { calltype := SIM_CALLTYPE_RECV
    tick := 0
    notified := 0
    irq_acked := 0
    ppcalled := 0
    reply_label := 0
    msg := List.replicate 121 0
    return_badge := 0
    debug := 0
    pinpad := 0
    stage := 0
    irq_delay := 1000000
    next_digit := 5 }

/-- `seL4_MessageInfo_new`: packs label (52 bits, at bit 12), capsUnwrapped
(3 bits, at bit 9), extraCaps (2 bits, at bit 7) and length (7 bits, at
bit 0) into one 64-bit word.  The word is modelled as the `Nat` it holds. -/
def seL4_MessageInfo_new (label capsUnwrapped extraCaps length : Nat) : Nat :=
  ((label &&& 0xfffffffffffff) <<< 12) |||
    ((capsUnwrapped &&& 0x7) <<< 9) |||
    ((extraCaps &&& 0x3) <<< 7) |||
    (length &&& 0x7f)

/-- `seL4_MessageInfo_get_label`: extracts bits 12..63 of the word. -/
def seL4_MessageInfo_get_label (msginfo : Nat) : Nat :=
  (msginfo &&& 0xfffffffffffff000) >>> 12

/-- `seL4_MessageInfo_get_length`: extracts bits 0..6 of the word. -/
def seL4_MessageInfo_get_length (msginfo : Nat) : Nat :=
  msginfo &&& 0x7f

/-- `sel4cp_msginfo_new`: wrapper fixing `capsUnwrapped = extraCaps = 0`. -/
def sel4cp_msginfo_new (label count : Nat) : Nat :=
  seL4_MessageInfo_new label 0 0 count

/-- `sel4cp_msginfo_get_label`: wrapper around `seL4_MessageInfo_get_label`. -/
def sel4cp_msginfo_get_label (msginfo : Nat) : Nat :=
  seL4_MessageInfo_get_label msginfo

/-- The value of the C expression `1 << ch` as it appears in `sel4cp_notify`
and `sel4cp_irq_ack`.  The literal `1` has type `int` (32-bit signed), so for
`ch ≤ 30` the result is the single bit `2 ^ ch`; for `ch = 31` the product
`1 * 2 ^ 31` is not representable in `int`, and for `ch ≥ 32` the shift
amount reaches the width of the type — both are undefined behavior in C,
modelled here as `none`. -/
def one_shl_int (ch : Nat) : Option Nat :=
  if ch ≤ 30 then some (1 <<< ch) else none

/-- `SEL4CP_MAX_CHANNELS` -/
def SEL4CP_MAX_CHANNELS : Nat := 63

/-- `sel4cp_notify`: out-of-range channels are rejected with a diagnostic and
no state change; otherwise the code ors `1 << ch` (an `int` expression, see
`one_shl_int`) into `sim_notified`, which is undefined behavior for
`31 ≤ ch ≤ 63`. -/
def sel4cp_notify (ch : Nat) (s : SimState) : Option SimState :=
  if ch > SEL4CP_MAX_CHANNELS then some s
  else
    match one_shl_int ch with
    | some b => some { s with notified := s.notified ||| b }
    | none => none

/-- `sel4cp_irq_ack`: same shape as `sel4cp_notify`, targeting
`sim_irq_acked`. -/
def sel4cp_irq_ack (ch : Nat) (s : SimState) : Option SimState :=
  if ch > SEL4CP_MAX_CHANNELS then some s
  else
    match one_shl_int ch with
    | some b => some { s with irq_acked := s.irq_acked ||| b }
    | none => none

/-- `sel4cp_mr_set`: writes a message register, rejecting indexes above 120
with a diagnostic and no state change. -/
def sel4cp_mr_set (mr v : Nat) (s : SimState) : SimState :=
  if mr > 120 then s else { s with msg := s.msg.set mr v }

/-- `sel4cp_mr_get`: reads a message register, returning 0 with a diagnostic
for indexes above 120. -/
def sel4cp_mr_get (mr : Nat) (s : SimState) : Nat :=
  if mr > 120 then 0 else s.msg.getD mr 0

/-- Stage 0 block of `simulate()`: client1 makes a ppcall — the badge is set
to `9223372036854775808 | 1` (top bit plus channel 1) and the stage advances
to 1. -/
def stage0step (s : SimState) : SimState :=
  if s.stage = 0 then
    { s with return_badge := 9223372036854775808 ||| 1, stage := 1 }
  else s

/-- Stage 1 block of `simulate()`: client1 waits for a positive response —
the stage advances to 2 once the recorded reply label is 1. -/
def stage1step (s : SimState) : SimState :=
  if s.stage = 1 then
    if s.reply_label = 1 then { s with stage := 2 } else s
  else s

/-- Stage 2 block of `simulate()`: the user enters a PIN.  The delay counts
down once per call while above 1; on reaching 1 it drops to 0, the current
digit is stored in the pinpad buffer (a `uint8_t`, hence `% 256`) and the
badge is set to `0 | 1` (notification on channel 0); while the delay is 0
the IRQ stays masked until `sim_irq_acked & 1` is observed, which decrements
the digit and reloads the delay with 5000000; finally, once the digit falls
below 2 the stage advances to 3. -/
def stage2step (s : SimState) : SimState :=
  if s.stage = 2 then
    let s1 := if s.irq_delay > 1 then { s with irq_delay := s.irq_delay - 1 } else s
    let s2 :=
      if s1.irq_delay = 1 then
        { s1 with irq_delay := 0, pinpad := s1.next_digit % 256, return_badge := 1 }
      else s1
    let s3 :=
      if s2.irq_delay = 0 ∧ s2.irq_acked &&& 1 ≠ 0 then
        { s2 with next_digit := dec64 s2.next_digit, irq_delay := 5000000 }
      else s2
    if s3.next_digit < 2 then { s3 with stage := 3 } else s3
  else s

/-- Stage 3 block of `simulate()`: client1 awaits a notification on
channel 1 (`sim_notified & 2`); when it arrives, client2 makes a ppcall —
badge `9223372036854775808 | 2`, stage 4, and the recorded reply label is
cleared. -/
def stage3step (s : SimState) : SimState :=
  if s.stage = 3 ∧ s.notified &&& 2 ≠ 0 then
    { s with return_badge := 9223372036854775808 ||| 2, stage := 4, reply_label := 0 }
  else s

/-- Stage 4 block of `simulate()`: client2 waits for a positive response —
`debug` is set to 1, and once the recorded reply label is 1 the delay is
reloaded with 10000, the digit with 5, and the stage advances to 5. -/
def stage4step (s : SimState) : SimState :=
  if s.stage = 4 then
    let s1 := { s with debug := 1 }
    if s1.reply_label = 1 then
      { s1 with irq_delay := 10000, next_digit := 5, stage := 5 }
    else s1
  else s

/-- Stage 5 block of `simulate()`: a second PIN entry, like stage 2, except
that `debug` is cleared, a spurious ppcall invitation on channel 1 is
emitted when the delay passes 100, the reload value is 7500000, and the
stage advances to 6 once the digit falls below 2. -/
def stage5step (s : SimState) : SimState :=
  if s.stage = 5 then
    let s1 := { s with debug := 0 }
    let s2 := if s1.irq_delay > 1 then { s1 with irq_delay := s1.irq_delay - 1 } else s1
    let s3 :=
      if s2.irq_delay = 100 then
        { s2 with return_badge := 9223372036854775808 ||| 1 }
      else s2
    let s4 :=
      if s3.irq_delay = 1 then
        { s3 with irq_delay := 0, pinpad := s3.next_digit % 256, return_badge := 1 }
      else s3
    let s5 :=
      if s4.irq_delay = 0 ∧ s4.irq_acked &&& 1 ≠ 0 then
        { s4 with next_digit := dec64 s4.next_digit, irq_delay := 7500000 }
      else s4
    if s5.next_digit < 2 then { s5 with stage := 6 } else s5
  else s

/-- The scenario engine `simulate()`: a sent ppcall is not handled (empty
response, state untouched); otherwise the six stage blocks run in textual
order on the shared state and the function returns the neutral
`sel4cp_msginfo_new 0 0` envelope.  (The pointer aliasing that publishes
the pinpad buffer's address is invisible in this model: the buffer byte is
the `pinpad` field.) -/
def simulate (s : SimState) : SimState × Nat :=
  if s.calltype = SIM_CALLTYPE_PPCALL then
    (s, sel4cp_msginfo_new 0 0)
  else
    (stage5step (stage4step (stage3step (stage2step (stage1step (stage0step s))))),
      sel4cp_msginfo_new 0 0)

/-- Result of a receive-style call: the new simulator state, the returned
message-info word, and the badge written through the `sender` out-pointer. -/
structure CallResult where
  state : SimState
  msginfo : Nat
  sender : Nat
  deriving Repr, DecidableEq

/-- `seL4_Recv`: bumps the tick, records calltype `RECV`, zeroes the badge,
runs `simulate()`, reads the badge into `sender`, and clears the notified,
irq-acked and ppcalled flags. -/
def seL4_Recv (s : SimState) : CallResult :=
  let s1 := { s with
    tick := (s.tick + 1) % U64
    calltype := SIM_CALLTYPE_RECV
    return_badge := 0 }
  let r := simulate s1
  { state := { r.1 with notified := 0, irq_acked := 0, ppcalled := 0 }
    msginfo := r.2
    sender := r.1.return_badge }

/-- `seL4_ReplyRecv`: like `seL4_Recv`, but records calltype `REPLYRECV` and
stores the label of the reply tag into `sim_reply_label` before simulating. -/
def seL4_ReplyRecv (reply_tag : Nat) (s : SimState) : CallResult :=
  let s1 := { s with
    tick := (s.tick + 1) % U64
    calltype := SIM_CALLTYPE_REPLYRECV
    reply_label := sel4cp_msginfo_get_label reply_tag
    return_badge := 0 }
  let r := simulate s1
  { state := { r.1 with notified := 0, irq_acked := 0, ppcalled := 0 }
    msginfo := r.2
    sender := r.1.return_badge }

/-- `sel4cp_ppcall`: an out-of-range channel only triggers a diagnostic (the
call continues); the tick is bumped, the channel and calltype `PPCALL` are
recorded, the request's label is stored into `sim_reply_label`, and
`simulate()` produces the response. -/
def sel4cp_ppcall (ch : Nat) (msginfo : Nat) (s : SimState) : SimState × Nat :=
  let s1 := { s with
    tick := (s.tick + 1) % U64
    ppcalled := ch
    calltype := SIM_CALLTYPE_PPCALL
    reply_label := sel4cp_msginfo_get_label msginfo }
  simulate s1

/-- The globals of `libmantle.h` (`mantle_ret_count`, `mantle_ret_badge`)
together with the simulator state they wrap. -/
structure MantleState where
  sim : SimState
  ret_count : Nat
  ret_badge : Nat
  deriving Repr, DecidableEq

/-- All libmantle globals at their initializers. -/
def mantleInit : MantleState :=
  { sim := initState, ret_count := 0, ret_badge := 0 }

/-- `mantle_ppcall`: builds the request envelope, performs `sel4cp_ppcall`,
stores a length into `mantle_ret_count`, and returns the response's label.
Note that the source reads that length from `msginfo` — the request just
built — and not from `ret`, the response (unlike `mantle_recv` and
`mantle_replyrecv`, which read it from `ret`). -/
def mantle_ppcall (ch msginfo_label msginfo_count : Nat) (m : MantleState) :
    MantleState × Nat :=
  let msginfo := sel4cp_msginfo_new msginfo_label msginfo_count
  let r := sel4cp_ppcall ch msginfo m.sim
  ({ m with sim := r.1, ret_count := seL4_MessageInfo_get_length msginfo },
    sel4cp_msginfo_get_label r.2)

/-- `mantle_recv`: performs `seL4_Recv`, stores the badge and the response's
length, and returns the response's label. -/
def mantle_recv (m : MantleState) : MantleState × Nat :=
  let r := seL4_Recv m.sim
  ({ m with
      sim := r.state
      ret_badge := r.sender
      ret_count := seL4_MessageInfo_get_length r.msginfo },
    sel4cp_msginfo_get_label r.msginfo)

/-- `mantle_replyrecv`: builds the reply tag, performs `seL4_ReplyRecv`,
stores the badge and the response's length, and returns the response's
label. -/
def mantle_replyrecv (reply_tag_label reply_tag_count : Nat) (m : MantleState) :
    MantleState × Nat :=
  let reply_tag := sel4cp_msginfo_new reply_tag_label reply_tag_count
  let r := seL4_ReplyRecv reply_tag m.sim
  ({ m with
      sim := r.state
      ret_badge := r.sender
      ret_count := seL4_MessageInfo_get_length r.msginfo },
    sel4cp_msginfo_get_label r.msginfo)

/-- One call the PD under test can make against the simulator (the
receive-style and ppcall primitives; notify and irq-ack do not invoke the
scenario engine and are kept separate). -/
inductive MCall where
  | recv : MCall
  | replyrecv (reply_tag : Nat) : MCall
  | ppcall (ch : Nat) (msginfo : Nat) : MCall
  deriving Repr, DecidableEq

/-- Runs one `MCall`, returning the new state and the response word. -/
def runCall : MCall → SimState → SimState × Nat
  | MCall.recv, s => let r := seL4_Recv s; (r.state, r.msginfo)
  | MCall.replyrecv t, s => let r := seL4_ReplyRecv t s; (r.state, r.msginfo)
  | MCall.ppcall ch mi, s => sel4cp_ppcall ch mi s

/-- Runs a list of calls in order, collecting every response word. -/
def runSeq : List MCall → SimState → SimState × List Nat
  | [], s => (s, [])
  | c :: cs, s =>
    let r := runCall c s
    let rest := runSeq cs r.1
    (rest.1, r.2 :: rest.2)

/-- One receive-style call: `seL4_Recv`, or `seL4_ReplyRecv` with a given
reply tag — the two blocking waits of the PD under test. -/
inductive WaitCall where
  | recv : WaitCall
  | replyrecv (reply_tag : Nat) : WaitCall
  deriving Repr, DecidableEq

/-- Runs one receive-style call. -/
def runWait : WaitCall → SimState → CallResult
  | WaitCall.recv, s => seL4_Recv s
  | WaitCall.replyrecv t, s => seL4_ReplyRecv t s

/-- Runs a list of receive-style calls in order, collecting the badge
(`sender`) each call delivered. -/
def runWaits : List WaitCall → SimState → SimState × List Nat
  | [], s => (s, [])
  | c :: cs, s =>
    let r := runWait c s
    let rest := runWaits cs r.state
    (rest.1, r.sender :: rest.2)

/-- C7: from the initial state (stage 0), the first `seL4_Recv` returns a
badge whose top bit (bit 63) is set and whose remaining (channel) bits
equal 1: a protected-call invitation on channel 1. -/
theorem claim_C7_first_recv_badge :
    (seL4_Recv initState).sender >>> 63 = 1 ∧
      (seL4_Recv initState).sender &&& (2 ^ 63 - 1) = 1 := by
  constructor <;> rfl

/-- C5: after any `seL4_Recv` or `seL4_ReplyRecv` call, the notified flags,
the irq-acked flags and the pending-call-channel marker are all zero,
whatever the state before the call and whatever the scenario engine did. -/
theorem claim_C5_recv_clears_flags (s : SimState) (reply_tag : Nat) :
    (seL4_Recv s).state.notified = 0 ∧
      (seL4_Recv s).state.irq_acked = 0 ∧
      (seL4_Recv s).state.ppcalled = 0 ∧
      (seL4_ReplyRecv reply_tag s).state.notified = 0 ∧
      (seL4_ReplyRecv reply_tag s).state.irq_acked = 0 ∧
      (seL4_ReplyRecv reply_tag s).state.ppcalled = 0 := by
  refine ⟨rfl, rfl, rfl, rfl, rfl, rfl⟩

/-- The response word of `simulate()` is the neutral envelope in every case. -/
theorem simulate_snd (s : SimState) : (simulate s).2 = sel4cp_msginfo_new 0 0 := by
  unfold simulate
  split <;> rfl

/-- The response word of `sel4cp_ppcall` is the neutral envelope. -/
theorem sel4cp_ppcall_snd (ch msginfo : Nat) (s : SimState) :
    (sel4cp_ppcall ch msginfo s).2 = sel4cp_msginfo_new 0 0 := by
  unfold sel4cp_ppcall
  exact simulate_snd _

theorem get_label_neutral : seL4_MessageInfo_get_label (sel4cp_msginfo_new 0 0) = 0 := rfl

theorem get_length_neutral : seL4_MessageInfo_get_length (sel4cp_msginfo_new 0 0) = 0 := rfl

theorem stage0step_stage_le (s : SimState) : s.stage ≤ (stage0step s).stage := by
  simp only [stage0step]
  split_ifs <;> simp_all

theorem stage1step_stage_le (s : SimState) : s.stage ≤ (stage1step s).stage := by
  simp only [stage1step]
  split_ifs <;> simp_all

theorem stage2step_stage_le (s : SimState) : s.stage ≤ (stage2step s).stage := by
  simp only [stage2step]
  split_ifs <;> simp_all

theorem stage3step_stage_le (s : SimState) : s.stage ≤ (stage3step s).stage := by
  simp only [stage3step]
  split_ifs <;> simp_all

theorem stage4step_stage_le (s : SimState) : s.stage ≤ (stage4step s).stage := by
  simp only [stage4step]
  split_ifs <;> simp_all

theorem stage5step_stage_le (s : SimState) : s.stage ≤ (stage5step s).stage := by
  simp only [stage5step]
  split_ifs <;> simp_all

/-- C9: the scenario stage never decreases across an invocation of the
scenario engine — proved for every simulator state, reachable or not, so in
particular for every reachable one. -/
theorem claim_C9_stage_monotone (s : SimState) : s.stage ≤ (simulate s).1.stage := by
  unfold simulate
  split
  · exact Nat.le_refl _
  · exact le_trans (stage0step_stage_le s)
      (le_trans (stage1step_stage_le _)
        (le_trans (stage2step_stage_le _)
          (le_trans (stage3step_stage_le _)
            (le_trans (stage4step_stage_le _) (stage5step_stage_le _)))))

theorem stage0step_stage6 (s : SimState) (h : s.stage = 6) : stage0step s = s := by
  simp [stage0step, h]

theorem stage1step_stage6 (s : SimState) (h : s.stage = 6) : stage1step s = s := by
  simp [stage1step, h]

theorem stage2step_stage6 (s : SimState) (h : s.stage = 6) : stage2step s = s := by
  simp [stage2step, h]

theorem stage3step_stage6 (s : SimState) (h : s.stage = 6) : stage3step s = s := by
  simp [stage3step, h]

theorem stage4step_stage6 (s : SimState) (h : s.stage = 6) : stage4step s = s := by
  simp [stage4step, h]

theorem stage5step_stage6 (s : SimState) (h : s.stage = 6) : stage5step s = s := by
  simp [stage5step, h]

/-- At the terminal stage the scenario engine is the identity on the state
and returns the neutral envelope. -/
theorem simulate_stage6 (s : SimState) (h : s.stage = 6) :
    simulate s = (s, sel4cp_msginfo_new 0 0) := by
  unfold simulate
  split
  · rfl
  · rw [stage0step_stage6 s h, stage1step_stage6 s h, stage2step_stage6 s h,
      stage3step_stage6 s h, stage4step_stage6 s h, stage5step_stage6 s h]

/-- One terminal-stage step: any single call keeps the stage at 6 and
returns the neutral envelope. -/
theorem runCall_stage6 (c : MCall) (s : SimState) (h : s.stage = 6) :
    (runCall c s).1.stage = 6 ∧ (runCall c s).2 = sel4cp_msginfo_new 0 0 := by
  cases c <;>
    simp [runCall, seL4_Recv, seL4_ReplyRecv, sel4cp_ppcall, simulate_stage6, h]

/-- C8: once the scenario stage has reached its terminal value 6, every
further sequence of `recv`, `reply_recv` and `protected_call` invocations
leaves the stage at 6 and every response in the sequence is the neutral
empty envelope (label 0, length 0). -/
theorem claim_C8_terminal_stage (s : SimState) (h : s.stage = 6) (cs : List MCall) :
    (runSeq cs s).1.stage = 6 ∧
      ∀ r ∈ (runSeq cs s).2,
        seL4_MessageInfo_get_label r = 0 ∧ seL4_MessageInfo_get_length r = 0 := by
  induction cs generalizing s with
  | nil => simpa [runSeq] using h
  | cons c cs ih =>
    obtain ⟨h1, h2⟩ := runCall_stage6 c s h
    obtain ⟨ih1, ih2⟩ := ih (runCall c s).1 h1
    refine ⟨by simpa [runSeq] using ih1, ?_⟩
    intro r hr
    simp only [runSeq] at hr
    rcases List.mem_cons.mp hr with hr | hr
    · subst hr
      rw [h2]
      exact ⟨get_label_neutral, get_length_neutral⟩
    · exact ih2 r hr

/-- C8 witness: a concrete terminal state and a concrete call sequence. -/
theorem claim_C8_terminal_stage_witness :
    (runSeq [MCall.recv, MCall.ppcall 1 5, MCall.replyrecv 4096]
        { initState with stage := 6 }).1.stage = 6 ∧
      ∀ r ∈ (runSeq [MCall.recv, MCall.ppcall 1 5, MCall.replyrecv 4096]
          { initState with stage := 6 }).2,
        seL4_MessageInfo_get_label r = 0 ∧ seL4_MessageInfo_get_length r = 0 :=
  claim_C8_terminal_stage { initState with stage := 6 } rfl
    [MCall.recv, MCall.ppcall 1 5, MCall.replyrecv 4096]

/-- C10: every `sel4cp_ppcall` takes the scenario engine's ProtectedCall
short-circuit, whatever the prior state: the primitive records the channel,
calltype and request label (plus the tick) and gets back the neutral empty
envelope, the engine leaving the state untouched; consequently
`mantle_ppcall` always returns label 0. -/
theorem claim_C10_ppcall_always_empty (s : SimState) (ch msginfo : Nat)
    (m : MantleState) (lbl cnt : Nat) :
    sel4cp_ppcall ch msginfo s =
      ({ s with
          tick := (s.tick + 1) % U64
          ppcalled := ch
          calltype := SIM_CALLTYPE_PPCALL
          reply_label := sel4cp_msginfo_get_label msginfo },
        sel4cp_msginfo_new 0 0) ∧
      (mantle_ppcall ch lbl cnt m).2 = 0 := by
  constructor
  · rfl
  · show sel4cp_msginfo_get_label (sel4cp_ppcall ch (sel4cp_msginfo_new lbl cnt) m.sim).2 = 0
    rw [sel4cp_ppcall_snd]
    exact get_label_neutral

/-- C4: a `protected_call` issued while another protected call is already
outstanding (the recorded call kind is ProtectedCall) returns the empty
response: label 0 and length 0 — for every state and stage. -/
theorem claim_C4_nested_ppcall_empty (s : SimState) (ch msginfo : Nat)
    (h : s.calltype = SIM_CALLTYPE_PPCALL) :
    seL4_MessageInfo_get_label (sel4cp_ppcall ch msginfo s).2 = 0 ∧
      seL4_MessageInfo_get_length (sel4cp_ppcall ch msginfo s).2 = 0 := by
  rw [sel4cp_ppcall_snd]
  exact ⟨get_label_neutral, get_length_neutral⟩

/-- C4 witness: a concrete state with an outstanding protected call. -/
theorem claim_C4_nested_ppcall_empty_witness :
    ({ initState with calltype := SIM_CALLTYPE_PPCALL } : SimState).calltype
        = SIM_CALLTYPE_PPCALL ∧
      seL4_MessageInfo_get_label
          (sel4cp_ppcall 1 0 { initState with calltype := SIM_CALLTYPE_PPCALL }).2 = 0 ∧
      seL4_MessageInfo_get_length
          (sel4cp_ppcall 1 0 { initState with calltype := SIM_CALLTYPE_PPCALL }).2 = 0 :=
  ⟨rfl,
    claim_C4_nested_ppcall_empty { initState with calltype := SIM_CALLTYPE_PPCALL } 1 0 rfl⟩

/-- C2 evaluated on the code: for channel 31 the expression `1 << ch` is
undefined behavior (the `int` shift overflows), so `sel4cp_notify 31` and
`sel4cp_irq_ack 31` have no defined result, contradicting the claim that
every channel `0 ≤ ch ≤ 63` sets exactly bit `ch`; channels up to 30 do set
exactly their bit, and channels above 63 are rejected without effect. -/
theorem claim_C2_code_eval :
    sel4cp_notify 31 initState = none ∧
      sel4cp_irq_ack 31 initState = none ∧
      sel4cp_notify 64 initState = some initState ∧
      sel4cp_irq_ack 64 initState = some initState ∧
      sel4cp_notify 5 initState = some { initState with notified := 2 ^ 5 } ∧
      sel4cp_irq_ack 5 initState = some { initState with irq_acked := 2 ^ 5 } := by
  refine ⟨rfl, rfl, rfl, rfl, by decide, by decide⟩

/-- C3 evaluated on the code: `mantle_ppcall 1 7 5` leaves
`mantle_ret_count = 5` — the length field of the request it just built —
while the scenario engine's response envelope has length 0 (and label 0,
which is what the call returns). -/
theorem claim_C3_code_eval :
    (mantle_ppcall 1 7 5 mantleInit).1.ret_count = 5 ∧
      (mantle_ppcall 1 7 5 mantleInit).2 = 0 ∧
      seL4_MessageInfo_get_length (sel4cp_ppcall 1 (sel4cp_msginfo_new 7 5) mantleInit.sim).2
        = 0 := by
  refine ⟨rfl, rfl, rfl⟩

/-- Decoding the label field of an encoded envelope always yields the label
input reduced to its 52-bit width. -/
theorem get_label_new (l c e n : Nat) :
    seL4_MessageInfo_get_label (seL4_MessageInfo_new l c e n) = l % 2 ^ 52 := by
  have hm1 : (0xfffffffffffff : Nat) = 2 ^ 52 - 1 := by norm_num
  have hm2 : (0xfffffffffffff000 : Nat) = (2 ^ 52 - 1) <<< 12 := by
    norm_num [Nat.shiftLeft_eq]
  have hm3 : (0x7 : Nat) = 2 ^ 3 - 1 := by norm_num
  have hm4 : (0x3 : Nat) = 2 ^ 2 - 1 := by norm_num
  have hm5 : (0x7f : Nat) = 2 ^ 7 - 1 := by norm_num
  unfold seL4_MessageInfo_get_label seL4_MessageInfo_new
  rw [hm1, hm2, hm3, hm4, hm5]
  simp only [Nat.and_pow_two_sub_one_eq_mod]
  apply Nat.eq_of_testBit_eq
  intro i
  have e1 : 12 + i - 9 = 3 + i := by omega
  have e2 : 12 + i - 7 = 5 + i := by omega
  have d1 : 12 ≤ 12 + i := by omega
  have d2 : ¬ (3 + i < 3) := by omega
  have d3 : ¬ (5 + i < 2) := by omega
  have d4 : ¬ (12 + i < 7) := by omega
  simp only [Nat.testBit_shiftRight, Nat.testBit_and, Nat.testBit_or, Nat.testBit_shiftLeft,
    Nat.testBit_mod_two_pow, Nat.testBit_two_pow_sub_one, Nat.add_sub_cancel_left,
    e1, e2, d1, d2, d3, d4, decide_True, decide_False, Bool.true_and, Bool.false_and,
    Bool.and_false, Bool.or_false, Bool.and_true]
  by_cases h : i < 52 <;> simp [h, e1, e2, d1, d2, d3, d4]

/-- Decoding the length field of an encoded envelope always yields the
length input reduced to its 7-bit width. -/
theorem get_length_new (l c e n : Nat) :
    seL4_MessageInfo_get_length (seL4_MessageInfo_new l c e n) = n % 2 ^ 7 := by
  have hm1 : (0xfffffffffffff : Nat) = 2 ^ 52 - 1 := by norm_num
  have hm3 : (0x7 : Nat) = 2 ^ 3 - 1 := by norm_num
  have hm4 : (0x3 : Nat) = 2 ^ 2 - 1 := by norm_num
  have hm5 : (0x7f : Nat) = 2 ^ 7 - 1 := by norm_num
  unfold seL4_MessageInfo_get_length seL4_MessageInfo_new
  rw [hm1, hm3, hm4, hm5]
  simp only [Nat.and_pow_two_sub_one_eq_mod]
  apply Nat.eq_of_testBit_eq
  intro i
  simp only [Nat.testBit_mod_two_pow, Nat.testBit_or, Nat.testBit_shiftLeft]
  by_cases h7 : i < 7
  · have d1 : ¬ (12 ≤ i) := by omega
    have d2 : ¬ (9 ≤ i) := by omega
    have d3 : ¬ (7 ≤ i) := by omega
    simp [h7, d1, d2, d3]
  · simp [h7]

/-- C6: `seL4_MessageInfo_new` followed by `seL4_MessageInfo_get_label`
and `seL4_MessageInfo_get_length` round-trips exactly for every label
within 52 bits and every length within 7 bits, for arbitrary
capsUnwrapped/extraCaps inputs; outside those widths the decoded fields are
the inputs masked (reduced mod `2 ^ 52` resp. `2 ^ 7`), never rejected. -/
theorem claim_C6_msginfo_roundtrip (label caps extra len : Nat) :
    seL4_MessageInfo_get_label (seL4_MessageInfo_new label caps extra len) = label % 2 ^ 52 ∧
      seL4_MessageInfo_get_length (seL4_MessageInfo_new label caps extra len) = len % 2 ^ 7 ∧
      (label < 2 ^ 52 →
        seL4_MessageInfo_get_label (seL4_MessageInfo_new label caps extra len) = label) ∧
      (len < 2 ^ 7 →
        seL4_MessageInfo_get_length (seL4_MessageInfo_new label caps extra len) = len) :=
  ⟨get_label_new label caps extra len,
    get_length_new label caps extra len,
    fun h => (get_label_new label caps extra len).trans (Nat.mod_eq_of_lt h),
    fun h => (get_length_new label caps extra len).trans (Nat.mod_eq_of_lt h)⟩

/-- C6 witness: a concrete in-range instance (label `2 ^ 52 - 1`, caps 5,
extra 3, length 127) round-trips exactly. -/
theorem claim_C6_msginfo_roundtrip_witness :
    seL4_MessageInfo_get_label (seL4_MessageInfo_new 4503599627370495 5 3 127)
        = 4503599627370495 ∧
      seL4_MessageInfo_get_length (seL4_MessageInfo_new 4503599627370495 5 3 127) = 127 :=
  ⟨(claim_C6_msginfo_roundtrip 4503599627370495 5 3 127).2.2.1 (by norm_num),
    (claim_C6_msginfo_roundtrip 4503599627370495 5 3 127).2.2.2 (by norm_num)⟩

/-- `x--` really is subtraction by one while the variable is positive and in
64-bit range. -/
theorem dec64_eq_sub_one (x : Nat) (h1 : 1 ≤ x) (h2 : x < U64) : dec64 x = x - 1 := by
  unfold dec64 U64 at *
  omega

/-- A stage-2 tick with more than two remaining delay: the countdown just
decrements, nothing fires, the badge delivered is 0. -/
theorem recv_stage2_count (s : SimState) (h2 : s.stage = 2) (ha : s.irq_acked = 0)
    (hg : 2 ≤ s.next_digit) (hd : 2 < s.irq_delay) :
    seL4_Recv s =
      { state := { s with
            tick := (s.tick + 1) % U64
            calltype := SIM_CALLTYPE_RECV
            return_badge := 0
            irq_delay := s.irq_delay - 1
            notified := 0
            irq_acked := 0
            ppcalled := 0 }
        msginfo := sel4cp_msginfo_new 0 0
        sender := 0 } := by
  have hd1 : 1 < s.irq_delay := by omega
  have hne1 : s.irq_delay - 1 ≠ 1 := by omega
  have hne0 : s.irq_delay - 1 ≠ 0 := by omega
  have hgg : ¬ (s.next_digit < 2) := by omega
  simp [seL4_Recv, simulate, stage0step, stage1step, stage2step, stage3step, stage4step,
    stage5step, SIM_CALLTYPE_RECV, SIM_CALLTYPE_PPCALL, h2, ha, hd1, hne1, hne0, hgg]

/-- A stage-2 tick with exactly two remaining delay: the countdown reaches
its trigger value, the digit is written to the pinpad buffer and the
channel-0 notification badge 1 is delivered. -/
theorem recv_stage2_fire (s : SimState) (h2 : s.stage = 2) (ha : s.irq_acked = 0)
    (hg : 2 ≤ s.next_digit) (hd : s.irq_delay = 2) :
    seL4_Recv s =
      { state := { s with
            tick := (s.tick + 1) % U64
            calltype := SIM_CALLTYPE_RECV
            return_badge := 1
            irq_delay := 0
            pinpad := s.next_digit % 256
            notified := 0
            irq_acked := 0
            ppcalled := 0 }
        msginfo := sel4cp_msginfo_new 0 0
        sender := 1 } := by
  have hgg : ¬ (s.next_digit < 2) := by omega
  simp [seL4_Recv, simulate, stage0step, stage1step, stage2step, stage3step, stage4step,
    stage5step, SIM_CALLTYPE_RECV, SIM_CALLTYPE_PPCALL, h2, ha, hd, hgg]

/-- A stage-2 tick with the countdown expired and no acknowledgement: the
IRQ stays masked, nothing changes, the badge delivered is 0. -/
theorem recv_stage2_masked (s : SimState) (h2 : s.stage = 2) (ha : s.irq_acked = 0)
    (hg : 2 ≤ s.next_digit) (hd : s.irq_delay = 0) :
    seL4_Recv s =
      { state := { s with
            tick := (s.tick + 1) % U64
            calltype := SIM_CALLTYPE_RECV
            return_badge := 0
            notified := 0
            irq_acked := 0
            ppcalled := 0 }
        msginfo := sel4cp_msginfo_new 0 0
        sender := 0 } := by
  have hgg : ¬ (s.next_digit < 2) := by omega
  simp [seL4_Recv, simulate, stage0step, stage1step, stage2step, stage3step, stage4step,
    stage5step, SIM_CALLTYPE_RECV, SIM_CALLTYPE_PPCALL, h2, ha, hd, hgg]

/-- A stage-2 tick with the countdown expired and channel-0 acknowledged:
the digit is decremented, the countdown reloaded with 5000000, and the
stage advances to 3 exactly when the digit has fallen below 2. -/
theorem recv_stage2_acked (s : SimState) (h2 : s.stage = 2)
    (ha : s.irq_acked &&& 1 ≠ 0) (hg : 2 ≤ s.next_digit) (hgu : s.next_digit < U64)
    (hn : s.notified &&& 2 = 0) (hd : s.irq_delay = 0) :
    seL4_Recv s =
      { state := { s with
            tick := (s.tick + 1) % U64
            calltype := SIM_CALLTYPE_RECV
            return_badge := 0
            next_digit := s.next_digit - 1
            irq_delay := 5000000
            stage := if s.next_digit - 1 < 2 then 3 else 2
            notified := 0
            irq_acked := 0
            ppcalled := 0 }
        msginfo := sel4cp_msginfo_new 0 0
        sender := 0 } := by
  have hdec : dec64 s.next_digit = s.next_digit - 1 :=
    dec64_eq_sub_one s.next_digit (by omega) hgu
  have hgg : ¬ (s.next_digit < 2) := by omega
  rw [Nat.and_one_is_mod] at ha
  have ha2 : s.irq_acked % 2 = 1 := by omega
  by_cases hlt : s.next_digit - 1 < 2 <;>
    simp [seL4_Recv, simulate, stage0step, stage1step, stage2step, stage3step, stage4step,
      stage5step, SIM_CALLTYPE_RECV, SIM_CALLTYPE_PPCALL, h2, ha2, hd, hgg, hdec, hlt, hn]

/-- Acknowledging channel 0 sets bit 0 of the irq-acked flags (channel 0 is
well below the undefined-shift range). -/
theorem irq_ack_zero (s : SimState) :
    sel4cp_irq_ack 0 s = some { s with irq_acked := s.irq_acked ||| 1 } := by
  simp [sel4cp_irq_ack, one_shl_int, SEL4CP_MAX_CHANNELS]

/-- C1 counterexample: with the stage-2 countdown initialized to `D = 2`
(and the digit at its initial 5, no acknowledgements pending), the very
first receive call — not the second — already delivers the
interrupt-equivalent response: badge 1 (channel-0 bit) with the digit 5
written to the pinpad buffer.  So fewer than `D` calls suffice, refuting
"exactly `D` recv/reply_recv calls are required before the first scripted
interrupt-equivalent response". -/
theorem claim_C1_counterexample :
    (seL4_Recv { initState with stage := 2, irq_delay := 2 }).sender = 1 ∧
      (seL4_Recv { initState with stage := 2, irq_delay := 2 }).state.pinpad = 5 ∧
      (seL4_Recv { initState with stage := 2, irq_delay := 2 }).state.irq_delay = 0 := by
  refine ⟨by decide, by decide, by decide⟩


/-- Like `recv_stage2_count`, for `seL4_ReplyRecv`: in stage 2 the recorded
reply label is never read (only stage 1 reads it), so a reply-receive ticks
the countdown exactly like a receive. -/
theorem replyrecv_stage2_count (t : Nat) (s : SimState) (h2 : s.stage = 2)
    (ha : s.irq_acked = 0) (hg : 2 ≤ s.next_digit) (hd : 2 < s.irq_delay) :
    seL4_ReplyRecv t s =
      { state := { s with
            tick := (s.tick + 1) % U64
            calltype := SIM_CALLTYPE_REPLYRECV
            reply_label := sel4cp_msginfo_get_label t
            return_badge := 0
            irq_delay := s.irq_delay - 1
            notified := 0
            irq_acked := 0
            ppcalled := 0 }
        msginfo := sel4cp_msginfo_new 0 0
        sender := 0 } := by
  have hd1 : 1 < s.irq_delay := by omega
  have hne1 : s.irq_delay - 1 ≠ 1 := by omega
  have hne0 : s.irq_delay - 1 ≠ 0 := by omega
  have hgg : ¬ (s.next_digit < 2) := by omega
  simp [seL4_ReplyRecv, simulate, stage0step, stage1step, stage2step, stage3step, stage4step,
    stage5step, SIM_CALLTYPE_REPLYRECV, SIM_CALLTYPE_PPCALL, h2, ha, hd1, hne1, hne0, hgg]

/-- Like `recv_stage2_fire`, for `seL4_ReplyRecv`. -/
theorem replyrecv_stage2_fire (t : Nat) (s : SimState) (h2 : s.stage = 2)
    (ha : s.irq_acked = 0) (hg : 2 ≤ s.next_digit) (hd : s.irq_delay = 2) :
    seL4_ReplyRecv t s =
      { state := { s with
            tick := (s.tick + 1) % U64
            calltype := SIM_CALLTYPE_REPLYRECV
            reply_label := sel4cp_msginfo_get_label t
            return_badge := 1
            irq_delay := 0
            pinpad := s.next_digit % 256
            notified := 0
            irq_acked := 0
            ppcalled := 0 }
        msginfo := sel4cp_msginfo_new 0 0
        sender := 1 } := by
  have hgg : ¬ (s.next_digit < 2) := by omega
  simp [seL4_ReplyRecv, simulate, stage0step, stage1step, stage2step, stage3step, stage4step,
    stage5step, SIM_CALLTYPE_REPLYRECV, SIM_CALLTYPE_PPCALL, h2, ha, hd, hgg]

/-- Like `recv_stage2_masked`, for `seL4_ReplyRecv`. -/
theorem replyrecv_stage2_masked (t : Nat) (s : SimState) (h2 : s.stage = 2)
    (ha : s.irq_acked = 0) (hg : 2 ≤ s.next_digit) (hd : s.irq_delay = 0) :
    seL4_ReplyRecv t s =
      { state := { s with
            tick := (s.tick + 1) % U64
            calltype := SIM_CALLTYPE_REPLYRECV
            reply_label := sel4cp_msginfo_get_label t
            return_badge := 0
            notified := 0
            irq_acked := 0
            ppcalled := 0 }
        msginfo := sel4cp_msginfo_new 0 0
        sender := 0 } := by
  have hgg : ¬ (s.next_digit < 2) := by omega
  simp [seL4_ReplyRecv, simulate, stage0step, stage1step, stage2step, stage3step, stage4step,
    stage5step, SIM_CALLTYPE_REPLYRECV, SIM_CALLTYPE_PPCALL, h2, ha, hd, hgg]

/-- Like `recv_stage2_acked`, for `seL4_ReplyRecv`. -/
theorem replyrecv_stage2_acked (t : Nat) (s : SimState) (h2 : s.stage = 2)
    (ha : s.irq_acked &&& 1 ≠ 0) (hg : 2 ≤ s.next_digit) (hgu : s.next_digit < U64)
    (hn : s.notified &&& 2 = 0) (hd : s.irq_delay = 0) :
    seL4_ReplyRecv t s =
      { state := { s with
            tick := (s.tick + 1) % U64
            calltype := SIM_CALLTYPE_REPLYRECV
            reply_label := sel4cp_msginfo_get_label t
            return_badge := 0
            next_digit := s.next_digit - 1
            irq_delay := 5000000
            stage := if s.next_digit - 1 < 2 then 3 else 2
            notified := 0
            irq_acked := 0
            ppcalled := 0 }
        msginfo := sel4cp_msginfo_new 0 0
        sender := 0 } := by
  have hdec : dec64 s.next_digit = s.next_digit - 1 :=
    dec64_eq_sub_one s.next_digit (by omega) hgu
  have hgg : ¬ (s.next_digit < 2) := by omega
  rw [Nat.and_one_is_mod] at ha
  have ha2 : s.irq_acked % 2 = 1 := by omega
  by_cases hlt : s.next_digit - 1 < 2 <;>
    simp [seL4_ReplyRecv, simulate, stage0step, stage1step, stage2step, stage3step, stage4step,
      stage5step, SIM_CALLTYPE_REPLYRECV, SIM_CALLTYPE_PPCALL, h2, ha2, hd, hgg, hdec, hlt, hn]

/-- Countdown tick for either receive-style call, in projection form. -/
theorem wait_stage2_count (c : WaitCall) (s : SimState) (h2 : s.stage = 2)
    (ha : s.irq_acked = 0) (hg : 2 ≤ s.next_digit) (hd : 2 < s.irq_delay) :
    (runWait c s).sender = 0 ∧
      (runWait c s).state.stage = 2 ∧
      (runWait c s).state.irq_acked = 0 ∧
      (runWait c s).state.notified = 0 ∧
      (runWait c s).state.next_digit = s.next_digit ∧
      (runWait c s).state.irq_delay = s.irq_delay - 1 ∧
      (runWait c s).state.pinpad = s.pinpad := by
  cases c with
  | recv => simp [runWait, recv_stage2_count s h2 ha hg hd, h2]
  | replyrecv t => simp [runWait, replyrecv_stage2_count t s h2 ha hg hd, h2]

/-- Countdown trigger for either receive-style call, in projection form. -/
theorem wait_stage2_fire (c : WaitCall) (s : SimState) (h2 : s.stage = 2)
    (ha : s.irq_acked = 0) (hg : 2 ≤ s.next_digit) (hd : s.irq_delay = 2) :
    (runWait c s).sender = 1 ∧
      (runWait c s).state.stage = 2 ∧
      (runWait c s).state.irq_acked = 0 ∧
      (runWait c s).state.notified = 0 ∧
      (runWait c s).state.next_digit = s.next_digit ∧
      (runWait c s).state.irq_delay = 0 ∧
      (runWait c s).state.pinpad = s.next_digit % 256 := by
  cases c with
  | recv => simp [runWait, recv_stage2_fire s h2 ha hg hd, h2]
  | replyrecv t => simp [runWait, replyrecv_stage2_fire t s h2 ha hg hd, h2]

/-- Masked tick for either receive-style call, in projection form. -/
theorem wait_stage2_masked (c : WaitCall) (s : SimState) (h2 : s.stage = 2)
    (ha : s.irq_acked = 0) (hg : 2 ≤ s.next_digit) (hd : s.irq_delay = 0) :
    (runWait c s).sender = 0 ∧
      (runWait c s).state.stage = 2 ∧
      (runWait c s).state.irq_acked = 0 ∧
      (runWait c s).state.notified = 0 ∧
      (runWait c s).state.next_digit = s.next_digit ∧
      (runWait c s).state.irq_delay = 0 ∧
      (runWait c s).state.pinpad = s.pinpad := by
  cases c with
  | recv => simp [runWait, recv_stage2_masked s h2 ha hg hd, h2, hd]
  | replyrecv t => simp [runWait, replyrecv_stage2_masked t s h2 ha hg hd, h2, hd]

/-- Acknowledged tick for either receive-style call, in projection form. -/
theorem wait_stage2_acked (c : WaitCall) (s : SimState) (h2 : s.stage = 2)
    (ha : s.irq_acked &&& 1 ≠ 0) (hg : 2 ≤ s.next_digit) (hgu : s.next_digit < U64)
    (hn : s.notified &&& 2 = 0) (hd : s.irq_delay = 0) :
    (runWait c s).sender = 0 ∧
      (runWait c s).state.next_digit = s.next_digit - 1 ∧
      (runWait c s).state.irq_delay = 5000000 ∧
      (runWait c s).state.stage = if s.next_digit - 1 < 2 then 3 else 2 := by
  cases c with
  | recv => simp [runWait, recv_stage2_acked s h2 ha hg hgu hn hd]
  | replyrecv t => simp [runWait, replyrecv_stage2_acked t s h2 ha hg hgu hn hd]

/-- Splitting a run of receive-style calls around a list append. -/
theorem runWaits_append (ws1 ws2 : List WaitCall) (s : SimState) :
    runWaits (ws1 ++ ws2) s
      = ((runWaits ws2 (runWaits ws1 s).1).1,
          (runWaits ws1 s).2 ++ (runWaits ws2 (runWaits ws1 s).1).2) := by
  induction ws1 generalizing s with
  | nil => simp [runWaits]
  | cons c cs ih => simp only [List.cons_append, runWaits, List.append_eq, ih]

/-- While the stage-2 countdown stays above the trigger, every sequence of
receive-style calls just decrements it: the badges delivered are all 0 and
stage, flags, digit and pinpad are unchanged. -/
theorem countdown_traj_w (ws : List WaitCall) (s : SimState) (h2 : s.stage = 2)
    (ha : s.irq_acked = 0) (hg : 2 ≤ s.next_digit) (hd : ws.length + 2 ≤ s.irq_delay) :
    (runWaits ws s).2 = List.replicate ws.length 0 ∧
      (runWaits ws s).1.stage = 2 ∧
      (runWaits ws s).1.irq_acked = 0 ∧
      (runWaits ws s).1.next_digit = s.next_digit ∧
      (runWaits ws s).1.irq_delay = s.irq_delay - ws.length ∧
      (runWaits ws s).1.pinpad = s.pinpad := by
  induction ws generalizing s with
  | nil => simp [runWaits, h2, ha]
  | cons c cs ih =>
    have hd2 : cs.length + 3 ≤ s.irq_delay := by simpa using hd
    obtain ⟨w1, w2, w3, w4, w5, w6, w7⟩ := wait_stage2_count c s h2 ha hg (by omega)
    obtain ⟨i1, i2, i3, i4, i5, i6⟩ :=
      ih (runWait c s).state w2 w3 (by omega) (by omega)
    simp only [runWaits, List.length_cons]
    refine ⟨?_, i2, i3, by omega, by omega, by omega⟩
    rw [w1, i1, List.replicate_succ]

/-- With the countdown expired and no acknowledgements, every sequence of
receive-style calls delivers only zero badges and changes nothing
observable. -/
theorem masked_traj_w (ws : List WaitCall) (s : SimState) (h2 : s.stage = 2)
    (ha : s.irq_acked = 0) (hg : 2 ≤ s.next_digit) (hd : s.irq_delay = 0)
    (hn : s.notified = 0) :
    (runWaits ws s).2 = List.replicate ws.length 0 ∧
      (runWaits ws s).1.stage = 2 ∧
      (runWaits ws s).1.irq_acked = 0 ∧
      (runWaits ws s).1.irq_delay = 0 ∧
      (runWaits ws s).1.next_digit = s.next_digit ∧
      (runWaits ws s).1.pinpad = s.pinpad ∧
      (runWaits ws s).1.notified = 0 := by
  induction ws generalizing s with
  | nil => simp [runWaits, h2, ha, hd, hn]
  | cons c cs ih =>
    obtain ⟨w1, w2, w3, w4, w5, w6, w7⟩ := wait_stage2_masked c s h2 ha hg hd
    obtain ⟨i1, i2, i3, i4, i5, i6, i7⟩ :=
      ih (runWait c s).state w2 w3 (by omega) w6 w4
    simp only [runWaits, List.length_cons]
    refine ⟨?_, i2, i3, i4, by omega, by omega, i7⟩
    rw [w1, i1, List.replicate_succ]

/-- From a stage-2 state with delay `d ≥ 2`, digit ≥ 2 and no pending
acknowledgement, every sequence of `d - 1` receive-style calls reaches the
interrupt: the first `d - 2` calls deliver badge 0, the last delivers
badge 1 and writes the digit to the pinpad buffer, leaving the countdown
expired. -/
theorem countdown_fire_w (d : Nat) (s : SimState) (ws : List WaitCall)
    (hw : ws.length = d - 1) (h2 : s.stage = 2) (ha : s.irq_acked = 0)
    (hg : 2 ≤ s.next_digit) (hdel : s.irq_delay = d) (hd : 2 ≤ d) :
    (runWaits ws s).2 = List.replicate (d - 2) 0 ++ [1] ∧
      (runWaits ws s).1.stage = 2 ∧
      (runWaits ws s).1.irq_acked = 0 ∧
      (runWaits ws s).1.irq_delay = 0 ∧
      (runWaits ws s).1.next_digit = s.next_digit ∧
      (runWaits ws s).1.pinpad = s.next_digit % 256 ∧
      (runWaits ws s).1.notified = 0 := by
  rcases List.eq_nil_or_concat ws with rfl | ⟨ws1, c, rfl⟩
  · simp at hw
    omega
  · rw [List.concat_eq_append] at hw ⊢
    have hw2 : ws1.length + 1 = d - 1 := by simpa using hw
    have hlen : ws1.length = d - 2 := by omega
    obtain ⟨t1, t2, t3, t4, t5, t6⟩ := countdown_traj_w ws1 s h2 ha hg (by omega)
    obtain ⟨f1, f2, f3, f4, f5, f6, f7⟩ :=
      wait_stage2_fire c (runWaits ws1 s).1 t2 t3 (by omega) (by omega)
    rw [runWaits_append]
    simp only [runWaits]
    refine ⟨?_, f2, f3, f6, by omega, ?_, f4⟩
    · rw [t1, f1, hlen]
    · rw [f7, t4]

/-- C1 amended: in a PIN-entry stage (stage 2) with the countdown at
`D ≥ 2`, the digit `g ≥ 2` and no acknowledgement pending, exactly `D - 1`
(not `D`) recv/reply_recv calls are required before the scenario engine
first emits the interrupt-equivalent response: for every sequence of
`D - 1` receive-style calls (each either a `recv` or a `reply_recv` with an
arbitrary reply tag), the first `D - 2` deliver badge 0 and the last
delivers badge 1 (channel-0 bit), writing the digit to the pinpad buffer.
Afterwards, with no `irq_ack`, any further sequence of recv/reply_recv
calls delivers only badge 0 with the digit counter and the stage
unchanged — the next digit comes only after an `irq_ack` on channel 0 —
and once channel 0 is acknowledged, the next receive-style call decrements
the digit, reloads the countdown with 5000000, and advances to stage 3
exactly when the digit counter has fallen below its floor value 2. -/
theorem claim_C1_amended_countdown (d g : Nat) (s : SimState) (ws : List WaitCall)
    (hw : ws.length = d - 1) (hd : 2 ≤ d) (hg : 2 ≤ g) (hgu : g < U64)
    (h2 : s.stage = 2) (hdel : s.irq_delay = d) (hdig : s.next_digit = g)
    (ha : s.irq_acked = 0) :
    (runWaits ws s).2 = List.replicate (d - 2) 0 ++ [1] ∧
      (runWaits ws s).1.pinpad = g % 256 ∧
      (∀ ms : List WaitCall,
        (runWaits ms (runWaits ws s).1).2 = List.replicate ms.length 0 ∧
          (runWaits ms (runWaits ws s).1).1.next_digit = g ∧
          (runWaits ms (runWaits ws s).1).1.stage = 2) ∧
      (∀ (ms : List WaitCall) (c : WaitCall) (sA : SimState),
        sel4cp_irq_ack 0 (runWaits ms (runWaits ws s).1).1 = some sA →
          (runWait c sA).sender = 0 ∧
            (runWait c sA).state.next_digit = g - 1 ∧
            (runWait c sA).state.irq_delay = 5000000 ∧
            (runWait c sA).state.stage = if g - 1 < 2 then 3 else 2) := by
  subst hdig
  obtain ⟨f1, f2, f3, f4, f5, f6, f7⟩ := countdown_fire_w d s ws hw h2 ha hg hdel hd
  refine ⟨f1, by rw [f6], ?_, ?_⟩
  · intro ms
    obtain ⟨m1, m2, m3, m4, m5, m6, m7⟩ :=
      masked_traj_w ms (runWaits ws s).1 f2 f3 (by omega) f4 f7
    exact ⟨m1, by omega, m2⟩
  · intro ms c sA hack
    obtain ⟨m1, m2, m3, m4, m5, m6, m7⟩ :=
      masked_traj_w ms (runWaits ws s).1 f2 f3 (by omega) f4 f7
    rw [irq_ack_zero] at hack
    obtain rfl := Option.some.inj hack
    obtain ⟨a1, a2, a3, a4⟩ := wait_stage2_acked c
      { (runWaits ms (runWaits ws s).1).1 with
          irq_acked := (runWaits ms (runWaits ws s).1).1.irq_acked ||| 1 }
      m2 (by simp [m3])
      (by show 2 ≤ (runWaits ms (runWaits ws s).1).1.next_digit; omega)
      (by show (runWaits ms (runWaits ws s).1).1.next_digit < U64; omega)
      (by simp [m7]) m4
    have hdig2 : ({ (runWaits ms (runWaits ws s).1).1 with
        irq_acked := (runWaits ms (runWaits ws s).1).1.irq_acked ||| 1 } :
          SimState).next_digit = s.next_digit := by
      show (runWaits ms (runWaits ws s).1).1.next_digit = s.next_digit
      omega
    exact ⟨a1, by rw [a2, hdig2], a3, by rw [a4, hdig2]⟩

/-- C1 amended witness: the concrete instance with countdown 3 and digit 2,
using a mixed sequence — one recv then one reply_recv — delivering a zero
badge and then the interrupt badge. -/
theorem claim_C1_amended_countdown_witness :
    (runWaits [WaitCall.recv, WaitCall.replyrecv 4096]
        { initState with stage := 2, irq_delay := 3, next_digit := 2 }).2
        = List.replicate 1 0 ++ [1] ∧
      (runWaits [WaitCall.recv, WaitCall.replyrecv 4096]
          { initState with stage := 2, irq_delay := 3, next_digit := 2 }).1.pinpad
        = 2 % 256 ∧
      (∀ ms : List WaitCall,
        (runWaits ms (runWaits [WaitCall.recv, WaitCall.replyrecv 4096]
            { initState with stage := 2, irq_delay := 3, next_digit := 2 }).1).2
          = List.replicate ms.length 0 ∧
          (runWaits ms (runWaits [WaitCall.recv, WaitCall.replyrecv 4096]
              { initState with stage := 2, irq_delay := 3, next_digit := 2 }).1).1.next_digit
            = 2 ∧
          (runWaits ms (runWaits [WaitCall.recv, WaitCall.replyrecv 4096]
              { initState with stage := 2, irq_delay := 3, next_digit := 2 }).1).1.stage
            = 2) ∧
      (∀ (ms : List WaitCall) (c : WaitCall) (sA : SimState),
        sel4cp_irq_ack 0 (runWaits ms (runWaits [WaitCall.recv, WaitCall.replyrecv 4096]
            { initState with stage := 2, irq_delay := 3, next_digit := 2 }).1).1 = some sA →
          (runWait c sA).sender = 0 ∧
            (runWait c sA).state.next_digit = 2 - 1 ∧
            (runWait c sA).state.irq_delay = 5000000 ∧
            (runWait c sA).state.stage = if 2 - 1 < 2 then 3 else 2) :=
  claim_C1_amended_countdown 3 2
    { initState with stage := 2, irq_delay := 3, next_digit := 2 }
    [WaitCall.recv, WaitCall.replyrecv 4096]
    (by decide) (by decide) (by decide) (by decide) rfl rfl rfl rfl
